import Mathlib

/-!
Verification of the playground span-transformation module
(`app/src/pages/playground/playgroundUtils.ts`).

The module is embedded shallowly: each TypeScript function becomes a Lean
function over an explicit JSON value type.  External collaborators that are
part of the repository but outside the provided sources (the constants file,
the zod schemas, the store constructor and the message-id generator) are
modelled from the specification; each such definition carries a doc comment
saying so.
-/

namespace Playground

/-- JSON values as produced by a JavaScript JSON parse.  Numeric payloads are
modelled as integers; no part of the transformation logic inspects numbers. -/
inductive JsonValue where
  | null : JsonValue
  | bool (b : Bool) : JsonValue
  | num (n : Int) : JsonValue
  | str (s : String) : JsonValue
  | arr (items : List JsonValue) : JsonValue
  | obj (fields : List (String × JsonValue)) : JsonValue

/-- Field lookup on a JSON object (objects produced by a JSON parse have
unique keys, so first-match lookup is faithful); `none` on non-objects. -/
def JsonValue.getField : JsonValue → String → Option JsonValue
  | .obj fields, key => fields.lookup key
  | _, _ => none

/-- Extract the payload of a JSON string; `none` otherwise. -/
def JsonValue.asString : JsonValue → Option String
  | .str s => some s
  | _ => none

/-- Extract the items of a JSON array; `none` otherwise. -/
def JsonValue.asArray : JsonValue → Option (List JsonValue)
  | .arr items => some items
  | _ => none

/-- Modelled from the spec: the error-tag string constants of
`playground/constants.ts`, which is not among the provided sources.  The
spec fixes only that they are distinct human-readable tags. -/
def SPAN_ATTRIBUTES_PARSING_ERROR : String := "Unable to parse span attributes"

/-- Modelled from the spec: see `SPAN_ATTRIBUTES_PARSING_ERROR`. -/
def INPUT_MESSAGES_PARSING_ERROR : String := "Unable to parse input messages"

/-- Modelled from the spec: see `SPAN_ATTRIBUTES_PARSING_ERROR`. -/
def OUTPUT_MESSAGES_PARSING_ERROR : String := "Unable to parse output messages"

/-- Modelled from the spec: see `SPAN_ATTRIBUTES_PARSING_ERROR`. -/
def OUTPUT_VALUE_PARSING_ERROR : String := "Unable to parse output value"

/-- Modelled from the spec: see `SPAN_ATTRIBUTES_PARSING_ERROR`. -/
def MODEL_NAME_PARSING_ERROR : String := "Unable to parse model name"

/-- Modelled from the spec: the closed set of canonical chat roles validated
by `chatMessageRolesSchema` (`playground/schemas.ts` is not among the
provided sources).  Roles are string-valued in the source (a string union
type), so they are modelled as strings. -/
def chatMessageRoles : List String := ["system", "user", "ai", "tool"]

/-- `isChatMessageRole` from the source: membership in the canonical role
enumeration, via schema validation. -/
def isChatMessageRole (role : String) : Bool :=
  chatMessageRoles.contains role

/-- Modelled from the spec: `ChatRoleMap` of `playground/constants.ts`
(not among the provided sources) — an ordered mapping from each canonical
role to its accepted alias strings, with pairwise-disjoint alias lists. -/
def ChatRoleMap : List (String × List String) :=
  [("user", ["human", "user"]),
   ("ai", ["assistant", "bot", "ai"]),
   ("system", ["system"]),
   ("tool", ["tool"])]

/-- Modelled from the spec: `DEFAULT_CHAT_ROLE` of the generative constants
module (not among the provided sources). -/
def DEFAULT_CHAT_ROLE : String := "user"

/-- The `for (const [chatRole, acceptedValues] of Object.entries(ChatRoleMap))`
loop of `getChatRole`: first entry whose alias list contains the role. -/
def findRole (role : String) : List (String × List String) → Option String
  | [] => none
  | (chatRole, acceptedValues) :: rest =>
    if acceptedValues.contains role then some chatRole
    else findRole role rest

/-- `getChatRole` from the source: canonical roles map to themselves,
otherwise the first alias-list hit wins, otherwise the default role. -/
def getChatRole (role : String) : String :=
  if isChatMessageRole role then role
  else (findRole role ChatRoleMap).getD DEFAULT_CHAT_ROLE

/-- Modelled from the spec: `modelProviderToModelPrefixMap` of
`playground/constants.ts` (not among the provided sources) — an ordered
mapping from provider identifier to the name fragments that identify it. -/
def modelProviderToModelPrefixMap : List (String × List String) :=
  [("OPENAI", ["gpt", "o1"]),
   ("AZURE_OPENAI", []),
   ("ANTHROPIC", ["claude"])]

/-- Modelled from the spec: `DEFAULT_MODEL_PROVIDER` of the generative
constants module (not among the provided sources). -/
def DEFAULT_MODEL_PROVIDER : String := "OPENAI"

/-- `listStartsWith hs needle`: `needle` is an initial run of `hs`. -/
def listStartsWith : List Char → List Char → Bool
  | _, [] => true
  | [], _ :: _ => false
  | a :: as, b :: bs => a == b && listStartsWith as bs

/-- `listHasRun hs needle`: `needle` occurs contiguously somewhere in `hs`. -/
def listHasRun : List Char → List Char → Bool
  | [], needle => needle.isEmpty
  | a :: as, needle => listStartsWith (a :: as) needle || listHasRun as needle

/-- JavaScript `String.prototype.includes`: substring occurrence anywhere in
the receiver (not anchored at the start). -/
def strIncludes (s sub : String) : Bool :=
  listHasRun s.toList sub.toList

/-- The `for (const provider of Object.keys(modelProviderToModelPrefixMap))`
loop of `getModelProviderFromModelName`: first provider one of whose
fragments occurs in the model name. -/
def findProvider (modelName : String) : List (String × List String) → Option String
  | [] => none
  | (provider, fragments) :: rest =>
    if fragments.any (fun p => strIncludes modelName p) then some provider
    else findProvider modelName rest

/-- `getModelProviderFromModelName` from the source. -/
def getModelProviderFromModelName (modelName : String) : String :=
  (findProvider modelName modelProviderToModelPrefixMap).getD DEFAULT_MODEL_PROVIDER

/-- The inner payload of a span-attributes message entry. -/
structure InnerMessage where
  role : String
  content : String

/-- A span-attributes message entry, wrapping the payload in a `message`
field, as required by the openinference semantic conventions. -/
structure MessageSchema where
  message : InnerMessage

/-- Modelled from the spec: the `message` entry schema of
`playground/schemas.ts` (not among the provided sources) — an object with a
`message` field holding an object with string `role` and `content`.
`none` is a zod `safeParse` failure; extra fields are ignored. -/
def messageSchemaParse (v : JsonValue) : Option MessageSchema := do
  let m ← v.getField "message"
  let role ← (← m.getField "role").asString
  let content ← (← m.getField "content").asString
  pure ⟨⟨role, content⟩⟩

/-- Modelled from the spec: `llmInputMessageSchema` — an object whose `llm`
field holds an object whose `input_messages` field is an array of message
entries; the array validation is all-or-nothing. -/
def llmInputMessageSchemaParse (v : JsonValue) : Option (List MessageSchema) := do
  let llm ← v.getField "llm"
  let items ← (← llm.getField "input_messages").asArray
  items.mapM messageSchemaParse

/-- Modelled from the spec: `llmOutputMessageSchema` — as the input-message
schema but on the `output_messages` field. -/
def llmOutputMessageSchemaParse (v : JsonValue) : Option (List MessageSchema) := do
  let llm ← v.getField "llm"
  let items ← (← llm.getField "output_messages").asArray
  items.mapM messageSchemaParse

/-- Modelled from the spec: `modelNameSchema` — an object whose `llm` field
holds an object whose `model_name` field is a string. -/
def modelNameSchemaParse (v : JsonValue) : Option String := do
  let llm ← v.getField "llm"
  (← llm.getField "model_name").asString

/-- Modelled from the spec: `outputSchema` — an object whose `output` field
holds an object whose `value` field is a string. -/
def outputSchemaParse (v : JsonValue) : Option String := do
  let out ← v.getField "output"
  (← out.getField "value").asString

/-- A playground chat message.  The source generates the opaque id through
the store's `generateMessageId`; ids are modelled as sequential naturals
drawn from an explicit counter. -/
structure ChatMessage where
  id : Nat
  role : String
  content : String
deriving Repr, DecidableEq

/-- `processAttributeMessagesToChatMessage` from the source: map each entry
to a chat message — fresh id, normalized role, content copied verbatim.
`nextId` models the state of the store's message-id generator. -/
def processAttributeMessagesToChatMessage (nextId : Nat)
    (messages : List MessageSchema) : List ChatMessage :=
  (messages.enumFrom nextId).map fun p =>
    { id := p.1, role := getChatRole p.2.message.role, content := p.2.message.content }

/-- Result of the input-message extractor. -/
structure TemplateMessagesResult where
  messageParsingErrors : List String
  messages : Option (List ChatMessage)
deriving Repr, DecidableEq

/-- `getTemplateMessagesFromAttributes` from the source. -/
def getTemplateMessagesFromAttributes (nextId : Nat)
    (parsedAttributes : JsonValue) : TemplateMessagesResult :=
  match llmInputMessageSchemaParse parsedAttributes with
  | none =>
    { messageParsingErrors := [INPUT_MESSAGES_PARSING_ERROR], messages := none }
  | some inputMessages =>
    { messageParsingErrors := []
      messages := some (processAttributeMessagesToChatMessage nextId inputMessages) }

/-- The output slot of a playground instance: either a list of chat messages
or a raw string value (`undefined` is `none` at the use sites). -/
inductive PlaygroundOutput where
  | messages (msgs : List ChatMessage) : PlaygroundOutput
  | value (s : String) : PlaygroundOutput
deriving Repr, DecidableEq

/-- Result of the output extractor. -/
structure OutputResult where
  output : Option PlaygroundOutput
  outputParsingErrors : List String
deriving Repr, DecidableEq

/-- `getOutputFromAttributes` from the source: try `llm.output_messages`,
then fall back to `output.value`, accumulating one error tag per failed
tier. -/
def getOutputFromAttributes (nextId : Nat) (parsedAttributes : JsonValue) :
    OutputResult :=
  match llmOutputMessageSchemaParse parsedAttributes with
  | some outputMessages =>
    { output := some (.messages (processAttributeMessagesToChatMessage nextId outputMessages))
      outputParsingErrors := [] }
  | none =>
    match outputSchemaParse parsedAttributes with
    | some parsedOutput =>
      { output := some (.value parsedOutput)
        outputParsingErrors := [OUTPUT_MESSAGES_PARSING_ERROR] }
    | none =>
      { output := none
        outputParsingErrors := [OUTPUT_MESSAGES_PARSING_ERROR, OUTPUT_VALUE_PARSING_ERROR] }

/-- A model configuration, as stored on a playground instance. -/
structure ModelConfig where
  modelName : String
  provider : String
deriving Repr, DecidableEq

/-- Result of the model-config extractor. -/
structure ModelConfigResult where
  modelConfig : Option ModelConfig
  parsingErrors : List String
deriving Repr, DecidableEq

/-- `getModelConfigFromAttributes` from the source. -/
def getModelConfigFromAttributes (parsedAttributes : JsonValue) :
    ModelConfigResult :=
  match modelNameSchemaParse parsedAttributes with
  | some name =>
    { modelConfig := some { modelName := name, provider := getModelProviderFromModelName name }
      parsingErrors := [] }
  | none =>
    { modelConfig := none, parsingErrors := [ MODEL_NAME_PARSING_ERROR] }

/-- A playground template: a tagged variant; the transformation only ever
constructs the chat variant, other variants stay at their baseline value. -/
inductive Template where
  | chat (messages : List ChatMessage) : Template
  | textCompletion (prompt : String) : Template
deriving Repr, DecidableEq

/-- Modelled from the spec: the store's `PlaygroundInstance` (the store
module is not among the provided sources) — the fields the transformation
writes (`model`, `template`, `output`) plus baseline fields it must leave
untouched. -/
structure PlaygroundInstance where
  id : Nat
  model : ModelConfig
  template : Template
  tools : List String
  input : String
  output : Option PlaygroundOutput
  isRunning : Bool
deriving Repr, DecidableEq

/-- Modelled from the spec: the store's `createPlaygroundInstance`
constructor returning a default-populated baseline instance. -/
def createPlaygroundInstance : PlaygroundInstance :=
  { id := 0
    model := { modelName := "gpt-4o", provider := DEFAULT_MODEL_PROVIDER }
    template := .chat []
    tools := []
    input := ""
    output := none
    isRunning := false }

/-- The span record consumed by the transformer: a serialized attribute bag. -/
structure PlaygroundSpan where
  attributes : String

/-- `transformSpanAttributesToPlaygroundInstance` from the source.
`parseJSON` stands for the external `safelyParseJSON` collaborator
(`none` is its `parseError` outcome); `nextId` models the state of the
store's message-id generator. -/
def transformSpanAttributesToPlaygroundInstance
    (parseJSON : String → Option JsonValue) (nextId : Nat)
    (span : PlaygroundSpan) : PlaygroundInstance × List String :=
  let basePlaygroundInstance := createPlaygroundInstance
  match parseJSON span.attributes with
  | none => (basePlaygroundInstance, [SPAN_ATTRIBUTES_PARSING_ERROR])
  | some parsedAttributes =>
    let tm := getTemplateMessagesFromAttributes nextId parsedAttributes
    let om := getOutputFromAttributes nextId parsedAttributes
    let mc := getModelConfigFromAttributes parsedAttributes
    ({ basePlaygroundInstance with
        model := mc.modelConfig.getD basePlaygroundInstance.model
        template :=
          match tm.messages with
          | some messages => .chat messages
          | none => basePlaygroundInstance.template
        output := om.output },
      tm.messageParsingErrors ++ om.outputParsingErrors ++ mc.parsingErrors)

/-- Follows the spec's words, for comparison with the source loop: the
first entry of the provider map one of whose fragments occurs anywhere in
the model name gives the provider; when no entry matches, the default
provider is returned. -/
def inferProviderSpec (modelName : String) : String :=
  match modelProviderToModelPrefixMap.find?
      (fun e => e.2.any fun p => strIncludes modelName p) with
  | some e => e.1
  | none => DEFAULT_MODEL_PROVIDER

/-- Discriminator: the output slot holds a chat-message list. -/
def isMessagesOutput : Option PlaygroundOutput → Bool
  | some (.messages _) => true
  | _ => false

/-- Discriminator: the output slot holds a raw string value. -/
def isValueOutput : Option PlaygroundOutput → Bool
  | some (.value _) => true
  | _ => false

/-- Sample attributes carrying exactly one well-formed input message. -/
def sampleInputAttributes : JsonValue :=
  .obj [("llm", .obj [("input_messages",
    .arr [.obj [("message",
      .obj [("role", .str "user"), ("content", .str "hi")])]])])]

/-- Sample attributes for exercising the merge: a model name and an output
value are present, input messages are absent. -/
def sampleMixedAttributes : JsonValue :=
  .obj [("llm", .obj [("model_name", .str "gpt-4")]),
        ("output", .obj [("value", .str "ok")])]

/-- C1: when the span's attributes string fails to parse as JSON, the
transformer returns the baseline instance from `createPlaygroundInstance`
unchanged together with the single error tag
`SPAN_ATTRIBUTES_PARSING_ERROR`; no extractor output and no other tag
appears in the result. -/
theorem C1_parse_failure_short_circuits
    (parseJSON : String → Option JsonValue) (nextId : Nat)
    (span : PlaygroundSpan) (h : parseJSON span.attributes = none) :
    transformSpanAttributesToPlaygroundInstance parseJSON nextId span =
      (createPlaygroundInstance, [SPAN_ATTRIBUTES_PARSING_ERROR]) := by
  simp only [transformSpanAttributesToPlaygroundInstance, h]

/-- Witness for C1 at a parse function that always fails. -/
theorem C1_parse_failure_short_circuits_witness :
    transformSpanAttributesToPlaygroundInstance (fun _ => none) 0 ⟨"not json"⟩ =
      (createPlaygroundInstance, [SPAN_ATTRIBUTES_PARSING_ERROR]) :=
  C1_parse_failure_short_circuits (fun _ => none) 0 ⟨"not json"⟩ rfl

/-- C3: when the output-messages shape validation fails but the
output-value shape validation succeeds with string `s`, the output
extractor returns `s` as the output together with exactly the tier-1 tag
`OUTPUT_MESSAGES_PARSING_ERROR`; no tier-2 tag is added. -/
theorem C3_tier1_error_kept_on_tier2_success
    (nextId : Nat) (a : JsonValue) (s : String)
    (h1 : llmOutputMessageSchemaParse a = none)
    (h2 : outputSchemaParse a = some s) :
    getOutputFromAttributes nextId a =
      { output := some (.value s)
        outputParsingErrors := [OUTPUT_MESSAGES_PARSING_ERROR] } := by
  simp only [getOutputFromAttributes, h1, h2]

/-- Witness for C3 at attributes carrying only an output value. -/
theorem C3_tier1_error_kept_on_tier2_success_witness :
    getOutputFromAttributes 0
        (.obj [("output", .obj [("value", .str "42")])]) =
      { output := some (.value "42")
        outputParsingErrors := [OUTPUT_MESSAGES_PARSING_ERROR] } :=
  C3_tier1_error_kept_on_tier2_success 0
    (.obj [("output", .obj [("value", .str "42")])]) "42" rfl rfl

/-- C4: on parse success the transformer's error list is exactly the
concatenation, in this order, of the input-message extractor's errors, the
output extractor's errors and the model-config extractor's errors. -/
theorem C4_error_concatenation_order
    (parseJSON : String → Option JsonValue) (nextId : Nat)
    (span : PlaygroundSpan) (a : JsonValue)
    (h : parseJSON span.attributes = some a) :
    (transformSpanAttributesToPlaygroundInstance parseJSON nextId span).2 =
      (getTemplateMessagesFromAttributes nextId a).messageParsingErrors ++
      (getOutputFromAttributes nextId a).outputParsingErrors ++
      (getModelConfigFromAttributes a).parsingErrors := by
  simp only [transformSpanAttributesToPlaygroundInstance, h]

/-- Witness for C4 at attributes equal to the empty JSON object. -/
theorem C4_error_concatenation_order_witness :
    (transformSpanAttributesToPlaygroundInstance
        (fun _ => some (.obj [])) 0 ⟨"obj"⟩).2 =
      (getTemplateMessagesFromAttributes 0 (.obj [])).messageParsingErrors ++
      (getOutputFromAttributes 0 (.obj [])).outputParsingErrors ++
      (getModelConfigFromAttributes (.obj [])).parsingErrors :=
  C4_error_concatenation_order (fun _ => some (.obj [])) 0 ⟨"obj"⟩ (.obj []) rfl

/-- C5: on attributes parsing to the empty JSON object all three extractors
fail, the error list is exactly the input tag, the two output tags and the
model-name tag in that order, and the instance equals the baseline except
that its output slot is overwritten with the (undefined) extracted output. -/
theorem C5_empty_object_all_extractors_fail
    (parseJSON : String → Option JsonValue) (nextId : Nat)
    (span : PlaygroundSpan) (h : parseJSON span.attributes = some (.obj [])) :
    transformSpanAttributesToPlaygroundInstance parseJSON nextId span =
      ({ createPlaygroundInstance with output := none },
       [INPUT_MESSAGES_PARSING_ERROR, OUTPUT_MESSAGES_PARSING_ERROR,
        OUTPUT_VALUE_PARSING_ERROR, MODEL_NAME_PARSING_ERROR]) := by
  simp only [transformSpanAttributesToPlaygroundInstance, h]
  rfl

/-- Witness for C5 at a parse function returning the empty object. -/
theorem C5_empty_object_all_extractors_fail_witness :
    transformSpanAttributesToPlaygroundInstance
        (fun _ => some (.obj [])) 0 ⟨"obj"⟩ =
      ({ createPlaygroundInstance with output := none },
       [INPUT_MESSAGES_PARSING_ERROR, OUTPUT_MESSAGES_PARSING_ERROR,
        OUTPUT_VALUE_PARSING_ERROR, MODEL_NAME_PARSING_ERROR]) :=
  C5_empty_object_all_extractors_fail (fun _ => some (.obj [])) 0 ⟨"obj"⟩ rfl

/-- C2: on parse success the merged instance takes the extracted model
config when there is one and the baseline model otherwise, takes a chat
template carrying the extracted messages when there are any and the
baseline template otherwise, always takes the output extractor's output,
and keeps every other field of the baseline instance. -/
theorem C2_merge_overwrites_and_frame
    (parseJSON : String → Option JsonValue) (nextId : Nat)
    (span : PlaygroundSpan) (a : JsonValue)
    (h : parseJSON span.attributes = some a) :
    (transformSpanAttributesToPlaygroundInstance parseJSON nextId span).1.model =
      ((getModelConfigFromAttributes a).modelConfig.getD
        createPlaygroundInstance.model) ∧
    (transformSpanAttributesToPlaygroundInstance parseJSON nextId span).1.template =
      (match (getTemplateMessagesFromAttributes nextId a).messages with
       | some messages => Template.chat messages
       | none => createPlaygroundInstance.template) ∧
    (transformSpanAttributesToPlaygroundInstance parseJSON nextId span).1.output =
      (getOutputFromAttributes nextId a).output ∧
    (transformSpanAttributesToPlaygroundInstance parseJSON nextId span).1.id =
      createPlaygroundInstance.id ∧
    (transformSpanAttributesToPlaygroundInstance parseJSON nextId span).1.tools =
      createPlaygroundInstance.tools ∧
    (transformSpanAttributesToPlaygroundInstance parseJSON nextId span).1.input =
      createPlaygroundInstance.input ∧
    (transformSpanAttributesToPlaygroundInstance parseJSON nextId span).1.isRunning =
      createPlaygroundInstance.isRunning := by
  unfold transformSpanAttributesToPlaygroundInstance
  rw [h]
  exact ⟨rfl, rfl, rfl, rfl, rfl, rfl, rfl⟩

/-- Witness for C2 at attributes with a model name and an output value but
no input messages. -/
theorem C2_merge_overwrites_and_frame_witness :
    (transformSpanAttributesToPlaygroundInstance
        (fun _ => some sampleMixedAttributes) 0 ⟨"s"⟩).1.model =
      ((getModelConfigFromAttributes sampleMixedAttributes).modelConfig.getD
        createPlaygroundInstance.model) ∧
    (transformSpanAttributesToPlaygroundInstance
        (fun _ => some sampleMixedAttributes) 0 ⟨"s"⟩).1.template =
      (match (getTemplateMessagesFromAttributes 0 sampleMixedAttributes).messages with
       | some messages => Template.chat messages
       | none => createPlaygroundInstance.template) ∧
    (transformSpanAttributesToPlaygroundInstance
        (fun _ => some sampleMixedAttributes) 0 ⟨"s"⟩).1.output =
      (getOutputFromAttributes 0 sampleMixedAttributes).output ∧
    (transformSpanAttributesToPlaygroundInstance
        (fun _ => some sampleMixedAttributes) 0 ⟨"s"⟩).1.id =
      createPlaygroundInstance.id ∧
    (transformSpanAttributesToPlaygroundInstance
        (fun _ => some sampleMixedAttributes) 0 ⟨"s"⟩).1.tools =
      createPlaygroundInstance.tools ∧
    (transformSpanAttributesToPlaygroundInstance
        (fun _ => some sampleMixedAttributes) 0 ⟨"s"⟩).1.input =
      createPlaygroundInstance.input ∧
    (transformSpanAttributesToPlaygroundInstance
        (fun _ => some sampleMixedAttributes) 0 ⟨"s"⟩).1.isRunning =
      createPlaygroundInstance.isRunning :=
  C2_merge_overwrites_and_frame (fun _ => some sampleMixedAttributes) 0 ⟨"s"⟩
    sampleMixedAttributes rfl

/-- C7: every alias string normalizes to the role owning it in the
(pairwise-disjoint) alias map, and every string that is neither canonical
nor an alias normalizes to the default role; the normalizer is total. -/
theorem C7_alias_and_default_normalization :
    (∀ r aliases s, (r, aliases) ∈ ChatRoleMap → s ∈ aliases →
      getChatRole s = r) ∧
    (∀ s, isChatMessageRole s = false →
      (∀ r aliases, (r, aliases) ∈ ChatRoleMap → s ∉ aliases) →
      getChatRole s = DEFAULT_CHAT_ROLE) := by
  constructor
  · intro r aliases s hmem hs
    fin_cases hmem <;> (fin_cases hs <;> rfl)
  · intro s h1 h2
    have h01 := h2 "user" ["human", "user"] (by simp [ChatRoleMap])
    have h02 := h2 "ai" ["assistant", "bot", "ai"] (by simp [ChatRoleMap])
    have h03 := h2 "system" ["system"] (by simp [ChatRoleMap])
    have h04 := h2 "tool" ["tool"] (by simp [ChatRoleMap])
    simp at h01 h02 h03 h04
    simp [getChatRole, h1, ChatRoleMap, findRole, h01, h02, h03, h04]

/-- Witness for C7: an alias hit and a miss both behave as claimed. -/
theorem C7_alias_and_default_normalization_witness :
    getChatRole "assistant" = "ai" ∧ getChatRole "zebra" = DEFAULT_CHAT_ROLE :=
  ⟨C7_alias_and_default_normalization.1 "ai" ["assistant", "bot", "ai"]
      "assistant" (by simp [ChatRoleMap]) (by simp),
    C7_alias_and_default_normalization.2 "zebra" rfl
      (by intro r aliases hmem; fin_cases hmem <;> simp)⟩

/-- C9: the role normalizer is the identity on every canonical chat role. -/
theorem C9_normalizer_identity_on_canonical
    (r : String) (h : isChatMessageRole r = true) : getChatRole r = r := by
  simp only [getChatRole, h, if_true]

/-- Witness for C9 at the canonical role "system". -/
theorem C9_normalizer_identity_on_canonical_witness :
    getChatRole "system" = "system" :=
  C9_normalizer_identity_on_canonical "system" rfl

/-- Unfolding of the message mapping on a cons cell: the head entry gets
the current counter value, the tail continues with the incremented one. -/
theorem process_cons (n : Nat) (m : MessageSchema) (ms : List MessageSchema) :
    processAttributeMessagesToChatMessage n (m :: ms) =
      { id := n, role := getChatRole m.message.role,
        content := m.message.content } ::
        processAttributeMessagesToChatMessage (n + 1) ms := rfl

/-- The message mapping copies contents verbatim, entry by entry. -/
theorem process_map_content : ∀ (n : Nat) (ms : List MessageSchema),
    (processAttributeMessagesToChatMessage n ms).map ChatMessage.content =
      ms.map fun m => m.message.content
  | _, [] => rfl
  | n, m :: rest => by
    rw [process_cons, List.map_cons, List.map_cons,
      process_map_content (n + 1) rest]

/-- The message mapping normalizes each role through `getChatRole`. -/
theorem process_map_role : ∀ (n : Nat) (ms : List MessageSchema),
    (processAttributeMessagesToChatMessage n ms).map ChatMessage.role =
      ms.map fun m => getChatRole m.message.role
  | _, [] => rfl
  | n, m :: rest => by
    rw [process_cons, List.map_cons, List.map_cons,
      process_map_role (n + 1) rest]

/-- The message mapping draws ids as successive counter values. -/
theorem process_map_id : ∀ (n : Nat) (ms : List MessageSchema),
    (processAttributeMessagesToChatMessage n ms).map ChatMessage.id =
      List.range' n ms.length
  | _, [] => rfl
  | n, m :: rest => by
    rw [process_cons, List.map_cons, List.length_cons, List.range'_succ,
      process_map_id (n + 1) rest]

/-- C6: the input-message extractor is all-or-nothing.  On validation
failure it returns no messages and exactly the input-messages error tag;
on success it returns no errors and one chat message per input entry, with
contents copied verbatim, roles passed through the normalizer, and ids the
successive (hence pairwise distinct, fresh) counter values. -/
theorem C6_input_extractor_all_or_nothing (nextId : Nat) (a : JsonValue) :
    (llmInputMessageSchemaParse a = none →
      getTemplateMessagesFromAttributes nextId a =
        { messageParsingErrors := [INPUT_MESSAGES_PARSING_ERROR],
          messages := none }) ∧
    (∀ ms, llmInputMessageSchemaParse a = some ms →
      (getTemplateMessagesFromAttributes nextId a).messageParsingErrors = [] ∧
      ((getTemplateMessagesFromAttributes nextId a).messages.map
          fun l => l.map ChatMessage.content) =
        some (ms.map fun m => m.message.content) ∧
      ((getTemplateMessagesFromAttributes nextId a).messages.map
          fun l => l.map ChatMessage.role) =
        some (ms.map fun m => getChatRole m.message.role) ∧
      ((getTemplateMessagesFromAttributes nextId a).messages.map
          fun l => l.map ChatMessage.id) =
        some (List.range' nextId ms.length) ∧
      (List.range' nextId ms.length).Nodup) := by
  constructor
  · intro h
    simp only [getTemplateMessagesFromAttributes, h]
  · intro ms h
    refine ⟨?_, ?_, ?_, ?_, List.nodup_range' _ _⟩ <;>
      simp [getTemplateMessagesFromAttributes, h, process_map_content,
        process_map_role, process_map_id]

/-- Witness for C6 at attributes with one well-formed input message. -/
theorem C6_input_extractor_all_or_nothing_witness :
    (getTemplateMessagesFromAttributes 0 sampleInputAttributes).messageParsingErrors
      = [] ∧
    ((getTemplateMessagesFromAttributes 0 sampleInputAttributes).messages.map
        fun l => l.map ChatMessage.content) = some ["hi"] ∧
    ((getTemplateMessagesFromAttributes 0 sampleInputAttributes).messages.map
        fun l => l.map ChatMessage.role) = some ["user"] ∧
    ((getTemplateMessagesFromAttributes 0 sampleInputAttributes).messages.map
        fun l => l.map ChatMessage.id) = some (List.range' 0 1) ∧
    (List.range' 0 1).Nodup :=
  (C6_input_extractor_all_or_nothing 0 sampleInputAttributes).2
    [⟨⟨"user", "hi"⟩⟩] rfl

/-- `listStartsWith` decides the initial-run relation. -/
theorem listStartsWith_iff : ∀ (hs needle : List Char),
    listStartsWith hs needle = true ↔ needle <+: hs
  | hs, [] => by simp [listStartsWith]
  | [], b :: bs => by simp [listStartsWith]
  | a :: as, b :: bs => by
    rw [listStartsWith]
    simp only [Bool.and_eq_true, beq_iff_eq, listStartsWith_iff as bs,
      List.cons_prefix_cons]
    exact ⟨fun p => ⟨p.1.symm, p.2⟩, fun p => ⟨p.1.symm, p.2⟩⟩

/-- `listHasRun` decides the contiguous-occurrence relation. -/
theorem listHasRun_iff : ∀ (hs needle : List Char),
    listHasRun hs needle = true ↔ needle <:+: hs
  | [], needle => by
    simp [listHasRun, List.isEmpty_iff]
  | a :: as, needle => by
    simp [listHasRun, listStartsWith_iff, listHasRun_iff as needle,
      List.infix_cons_iff]

/-- The provider loop agrees with a first-match search over the map. -/
theorem findProvider_eq_find (modelName : String) :
    ∀ l : List (String × List String),
      findProvider modelName l =
        (l.find? fun e => e.2.any fun p => strIncludes modelName p).map
          Prod.fst
  | [] => rfl
  | (provider, fragments) :: rest => by
    by_cases hc : (fragments.any fun p => strIncludes modelName p) = true
    · simp [findProvider, List.find?, hc]
    · simp [findProvider, List.find?, hc,
        findProvider_eq_find modelName rest]

/-- C8: provider inference returns the first provider of the map (in its
fixed order) one of whose configured fragments occurs anywhere in the model
name — a substring test, not anchored at the start — and the default
provider when none matches; it is total by construction. -/
theorem C8_provider_inference_first_substring_match :
    (∀ modelName, getModelProviderFromModelName modelName =
      inferProviderSpec modelName) ∧
    (∀ s sub, strIncludes s sub = true ↔ sub.toList <:+: s.toList) := by
  constructor
  · intro modelName
    rw [getModelProviderFromModelName, findProvider_eq_find,
      inferProviderSpec]
    cases hfind : modelProviderToModelPrefixMap.find?
        fun e => e.2.any fun p => strIncludes modelName p <;> rfl
  · intro s sub
    exact listHasRun_iff s.toList sub.toList

/-- Witness for C8: a fragment hit in the middle of the name. -/
theorem C8_provider_inference_first_substring_match_witness :
    getModelProviderFromModelName "azure-gpt-4" =
      inferProviderSpec "azure-gpt-4" ∧
    strIncludes "azure-gpt-4" "gpt" = true :=
  ⟨C8_provider_inference_first_substring_match.1 "azure-gpt-4",
    (C8_provider_inference_first_substring_match.2 "azure-gpt-4" "gpt").mpr
      (by decide)⟩

/-- C10: the output extractor returns exactly one of three shapes, each
tied to its own error list: a message list with no errors, a raw string
with exactly the output-messages tag, or no output with exactly the
output-messages tag followed by the output-value tag — and the three error
lists are pairwise distinct, so the error list determines the shape. -/
theorem C10_output_shape_trichotomy (nextId : Nat) (a : JsonValue) :
    (((getOutputFromAttributes nextId a).outputParsingErrors = [] ∧
        isMessagesOutput (getOutputFromAttributes nextId a).output = true) ∨
      ((getOutputFromAttributes nextId a).outputParsingErrors =
          [OUTPUT_MESSAGES_PARSING_ERROR] ∧
        isValueOutput (getOutputFromAttributes nextId a).output = true) ∨
      ((getOutputFromAttributes nextId a).outputParsingErrors =
          [OUTPUT_MESSAGES_PARSING_ERROR, OUTPUT_VALUE_PARSING_ERROR] ∧
        (getOutputFromAttributes nextId a).output = none)) ∧
    ([] : List String) ≠ [OUTPUT_MESSAGES_PARSING_ERROR] ∧
    ([OUTPUT_MESSAGES_PARSING_ERROR] ≠
      [OUTPUT_MESSAGES_PARSING_ERROR, OUTPUT_VALUE_PARSING_ERROR]) ∧
    ([] : List String) ≠
      [OUTPUT_MESSAGES_PARSING_ERROR, OUTPUT_VALUE_PARSING_ERROR] := by
  refine ⟨?_, by decide, by decide, by decide⟩
  cases h1 : llmOutputMessageSchemaParse a with
  | some ms =>
    exact Or.inl (by simp [getOutputFromAttributes, h1, isMessagesOutput])
  | none =>
    cases h2 : outputSchemaParse a with
    | some s =>
      exact Or.inr (Or.inl
        (by simp [getOutputFromAttributes, h1, h2, isValueOutput]))
    | none =>
      exact Or.inr (Or.inr (by simp [getOutputFromAttributes, h1, h2]))

/-- Witness for C10 at the empty object: the third shape obtains. -/
theorem C10_output_shape_trichotomy_witness :
    ((getOutputFromAttributes 0 (.obj [])).outputParsingErrors = [] ∧
      isMessagesOutput (getOutputFromAttributes 0 (.obj [])).output = true) ∨
    ((getOutputFromAttributes 0 (.obj [])).outputParsingErrors =
        [OUTPUT_MESSAGES_PARSING_ERROR] ∧
      isValueOutput (getOutputFromAttributes 0 (.obj [])).output = true) ∨
    ((getOutputFromAttributes 0 (.obj [])).outputParsingErrors =
        [OUTPUT_MESSAGES_PARSING_ERROR, OUTPUT_VALUE_PARSING_ERROR] ∧
      (getOutputFromAttributes 0 (.obj [])).output = none) :=
  (C10_output_shape_trichotomy 0 (.obj [])).1

end Playground
